import Mathlib

/-!
Verification of the core account-management logic of django-userena
(`userena/models.py`, `userena/models_base.py`, `userena/forms.py`).

The Python code is shallowly embedded: Django model instances become Lean
structures, timestamps are modelled as `Int` seconds, the query layer is a
`List` of records, template rendering and mail transport become an explicit
list of emitted `Effect`s, and the external guardian permission checker is a
function parameter. Settings from `userena/settings.py` (not part of the
verified sources) become an explicit `UserenaSettings` structure.
-/

namespace Userena

/-- External account identity record (`django.contrib.auth.models.User`).
Only the fields the verified code reads are modelled. -/
structure UserAccount where
  username : String
  email : String
  date_joined : Int
  is_active : Bool
  first_name : String
  last_name : String
deriving DecidableEq, Repr

/-- The viewer of a profile: either an anonymous visitor or a recognized
signed-in `User` instance. `isinstance(user, User)` in the source becomes
`isUserInstance`. -/
inductive Viewer where
  | anonymous
  | authenticated (u : UserAccount)
deriving DecidableEq, Repr

/-- Models the `isinstance(user, User)` check in `can_view_profile`. -/
def isUserInstance : Viewer → Bool
  | .anonymous => false
  | .authenticated _ => true

/-- The three `PRIVACY_CHOICES` of `UserenaBaseProfile` in
`models_base.py`. -/
inductive Privacy where
  | Open
  | Registered
  | Closed
deriving DecidableEq, Repr

/-- `UserenaBaseProfile` (`models_base.py`): the profile carries a privacy
level and belongs to a user. -/
structure UserenaBaseProfile where
  user : UserAccount
  privacy : Privacy
deriving DecidableEq, Repr

/-- `UserenaBaseProfile.can_view_profile` (`models_base.py` lines 91-132).
The guardian permission lookup `get_perms(user, self)` is passed in as the
function `get_perms`. -/
def can_view_profile (self : UserenaBaseProfile) (user : Viewer)
    (get_perms : Viewer → UserenaBaseProfile → List String) : Bool :=
  if self.privacy = Privacy.Open then true
  else if self.privacy = Privacy.Registered ∧ isUserInstance user = true then true
  else if "view_profile" ∈ get_perms user self then true
  else false

/-- Sentinel value `USERENA_ACTIVATED` marking an already-used activation
key (value given in the data-model section of the documentation; the
settings module is configuration, not verified logic). -/
def USERENA_ACTIVATED : String := "ALREADY_ACTIVATED"

/-- The tunable settings the verified code reads from
`userena.settings`. `USERENA_ACTIVATION_DAYS` defaults to 7 in the
deployment configuration. -/
structure UserenaSettings where
  USERENA_ACTIVATION_DAYS : Nat
  USERENA_ACTIVATION_RESEND_ON_SIGNUP : Bool
  USERENA_FORBIDDEN_USERNAMES : List String
  USERENA_MUGSHOT_GRAVATAR : Bool
  USERENA_MUGSHOT_DEFAULT : String
  USERENA_MUGSHOT_SIZE : Nat
deriving DecidableEq, Repr

/-- `UserenaSignup` model (`models.py`): the signup/activation record,
one-to-one with a `UserAccount`. -/
structure UserenaSignup where
  user : UserAccount
  last_active : Option Int
  activation_key : String
  activation_notification_send : Bool
  email_unconfirmed : String
  email_confirmation_key : String
  email_confirmation_key_created : Option Int
deriving DecidableEq, Repr

/-- Seconds in a day: `datetime.timedelta(days=d)` becomes `d * 86400`. -/
def secondsPerDay : Int := 86400

/-- `UserenaSignup.activation_key_expired` (`models.py` lines 136-154).
`datetime.datetime.now()` is passed in as `now`; the function is pure and
returns only a `Bool`, leaving the record untouched. -/
def activation_key_expired (s : UserenaSettings) (self : UserenaSignup)
    (now : Int) : Bool :=
  let expiration_days : Int := (s.USERENA_ACTIVATION_DAYS : Int) * secondsPerDay
  let expiration_date : Int := self.user.date_joined + expiration_days
  if self.activation_key = USERENA_ACTIVATED then true
  else if expiration_date ≤ now then true
  else false

/-- C1: `can_view_profile` returns true when the privacy is open; otherwise
true when the privacy is registered and the viewer is a recognized signed-in
user; otherwise true exactly when the permission checker grants
`view_profile`; otherwise false. The particular cases of the claim (open
profile visible to anonymous, registered visible to signed-in but not to
anonymous without a grant, closed without a grant invisible) are instances
of this characterization. -/
theorem can_view_profile_correct (p : UserenaBaseProfile) (v : Viewer)
    (g : Viewer → UserenaBaseProfile → List String) :
    can_view_profile p v g = true ↔
      (p.privacy = Privacy.Open ∨
       (p.privacy = Privacy.Registered ∧ isUserInstance v = true) ∨
       "view_profile" ∈ g v p) := by
  unfold can_view_profile
  split_ifs with h1 h2 h3 <;> simp_all

/-- C2: `activation_key_expired` returns true exactly when the activation
key equals the sentinel `USERENA_ACTIVATED` or the current time has reached
`date_joined` plus the configured activation window. The function takes the
record and the clock and returns only a boolean: it mutates nothing. A
sentinel-valued key is reported expired no matter how little time has
elapsed, since the sentinel disjunct does not mention the clock. -/
theorem activation_key_expired_correct (s : UserenaSettings)
    (r : UserenaSignup) (now : Int) :
    activation_key_expired s r now = true ↔
      (r.activation_key = USERENA_ACTIVATED ∨
       r.user.date_joined + (s.USERENA_ACTIVATION_DAYS : Int) * secondsPerDay ≤ now) := by
  unfold activation_key_expired
  split_ifs <;> simp_all

/-- Lowercase hexadecimal digit test, used to state that generated keys are
hex digests. -/
def is_lower_hex_digit (c : Char) : Bool :=
  c.isDigit || (c == 'a' || c == 'b' || c == 'c' || c == 'd' || c == 'e' || c == 'f')

/-- The digit character for a value below 16 (0-9 then a-f). -/
def hexChar (n : Nat) : Char :=
  if n < 10 then Char.ofNat (48 + n) else Char.ofNat (87 + n)

/-- A 40-character lowercase hex string obtained from a natural-number
seed: the shape of a SHA-1 hexdigest. -/
def hex40 (n : Nat) : String :=
  String.mk ((List.range 40).map (fun i => hexChar (n / 16 ^ i % 16)))

/-- A string is a 40-character lowercase hexadecimal digest. -/
def is_40_hex (s : String) : Bool :=
  (s.length == 40) && s.data.all is_lower_hex_digit

/-- Deterministic seed derived from a string, standing in for hashing the
string into the digest. -/
def str_seed (s : String) : Nat :=
  (s.data.map Char.toNat).sum

/-- Modelled from the spec: `generate_sha1` lives in `userena/utils.py`,
which is not among the verified sources. Per the specification it derives a
fresh random 40-hex-character digest from a random salt plus the given
string, hashed, and returns the pair (salt, hash). The random source is
modelled as the `seed` argument; the digest is a deterministic 40-character
lowercase hex string mixing the seed and the input string. -/
def generate_sha1 (seed : Nat) (s : String) : String × String :=
  ((hex40 seed).take 5, hex40 (seed * 31 + str_seed s))

theorem hexChar_hex (m : Nat) : is_lower_hex_digit (hexChar (m % 16)) = true := by
  have h : m % 16 < 16 := Nat.mod_lt _ (by norm_num)
  set k := m % 16 with hk
  interval_cases k <;> decide

theorem hex40_length (n : Nat) : (hex40 n).length = 40 := by
  simp [hex40, String.length]

theorem hex40_ne_empty (n : Nat) : hex40 n ≠ "" := by
  intro h
  have := hex40_length n
  rw [h] at this
  simp [String.length] at this

theorem hex40_is_40_hex (n : Nat) : is_40_hex (hex40 n) = true := by
  unfold is_40_hex
  rw [Bool.and_eq_true, beq_iff_eq, hex40_length]
  refine ⟨rfl, ?_⟩
  rw [List.all_eq_true]
  intro c hc
  simp only [hex40, String.mk, List.mem_map, List.mem_range] at hc
  obtain ⟨i, _, rfl⟩ := hc
  exact hexChar_hex _

/-- The template context built by `send_confirmation_email` (`models.py`
lines 103-107). The `protocol` and `site` entries come from excluded
collaborators and carry no information the claims mention; they are kept as
opaque strings fixed by the caller environment. -/
structure MailContext where
  user : UserAccount
  new_email : String
  confirmation_key : String
deriving DecidableEq, Repr

/-- One side effect emitted by the email-change workflow: a database save
of the signup record, or an outbound mail rendered from a template with a
context and sent to a recipient list. Effects appear in the list in the
order the Python code performs them. -/
inductive Effect where
  | save (record : UserenaSignup)
  | sendMail (template : String) (ctx : MailContext) (recipients : List String)
deriving DecidableEq, Repr

/-- `UserenaSignup.send_confirmation_email` (`models.py` lines 91-134):
renders and sends one email to the old (current) address and one to the new
unconfirmed address, both from the same context carrying the confirmation
key. It mutates nothing, so it is embedded as the list of mails it sends. -/
def send_confirmation_email (self : UserenaSignup) : List Effect :=
  let context : MailContext :=
    { user := self.user
      new_email := self.email_unconfirmed
      confirmation_key := self.email_confirmation_key }
  [Effect.sendMail "userena/emails/confirmation_email_old" context [self.user.email],
   Effect.sendMail "userena/emails/confirmation_email_new" context [self.email_unconfirmed]]

/-- `UserenaSignup.change_email` (`models.py` lines 67-89): store the new
address in `email_unconfirmed`, generate a confirmation key, record the
creation time, save, then send the confirmation emails. The random source
of `generate_sha1` is the `seed` argument and `datetime.datetime.now()` is
the `now` argument. Returns the updated record and the emitted effects in
program order. -/
def change_email (self : UserenaSignup) (email : String) (seed : Nat)
    (now : Int) : UserenaSignup × List Effect :=
  let withEmail : UserenaSignup := { self with email_unconfirmed := email }
  let sh := generate_sha1 seed withEmail.user.username
  let updated : UserenaSignup :=
    { withEmail with
        email_confirmation_key := sh.2
        email_confirmation_key_created := some now }
  (updated, Effect.save updated :: send_confirmation_email updated)

/-- C3: `change_email` stores the new address in `email_unconfirmed`
together with a freshly generated 40-character hex confirmation key and a
creation timestamp, and emits in order: first the database save of the
updated record, then exactly two mails, one to the current address of the
account and one to the new unconfirmed address whose context carries the
confirmation key. The save strictly precedes both sends in the effect list,
so a failing send leaves the saved state committed. -/
theorem change_email_correct (self : UserenaSignup) (email : String)
    (seed : Nat) (now : Int) :
    ((change_email self email seed now).1.email_unconfirmed = email ∧
     (change_email self email seed now).1.email_confirmation_key =
       (generate_sha1 seed self.user.username).2 ∧
     is_40_hex (change_email self email seed now).1.email_confirmation_key = true ∧
     (change_email self email seed now).1.email_confirmation_key_created = some now) ∧
    (change_email self email seed now).2 =
      [Effect.save (change_email self email seed now).1,
       Effect.sendMail "userena/emails/confirmation_email_old"
         { user := self.user
           new_email := email
           confirmation_key := (change_email self email seed now).1.email_confirmation_key }
         [self.user.email],
       Effect.sendMail "userena/emails/confirmation_email_new"
         { user := self.user
           new_email := email
           confirmation_key := (change_email self email seed now).1.email_confirmation_key }
         [email]] := by
  refine ⟨⟨rfl, rfl, ?_, rfl⟩, rfl⟩
  show is_40_hex (hex40 _) = true
  exact hex40_is_40_hex _

/-- Modelled from the spec: `UserenaSignup.objects.create_user` lives in
`userena/managers.py`, which is not among the verified sources. Per the
specification the signup record is created together with the account, with
a freshly generated random activation key (not the sentinel) and with the
email-change fields at their blank defaults. -/
def create_userena_signup (user : UserAccount) (seed : Nat) : UserenaSignup :=
  { user := user
    last_active := none
    activation_key := (generate_sha1 seed user.username).2
    activation_notification_send := false
    email_unconfirmed := ""
    email_confirmation_key := ""
    email_confirmation_key_created := none }

/-- Modelled from the spec: `confirm_email` lives in `userena/managers.py`,
which is not among the verified sources. Per the specification it looks up
by exact confirmation-key match and, on success, overwrites the account
email with `email_unconfirmed` and clears `email_unconfirmed` and
`email_confirmation_key`; on no match it fails. Embedded on one record:
the record matches when its stored key equals the submitted key. -/
def confirm_email (self : UserenaSignup) (key : String) : Option UserenaSignup :=
  if self.email_confirmation_key = key then
    some { self with
             user := { self.user with email := self.email_unconfirmed }
             email_unconfirmed := ""
             email_confirmation_key := "" }
  else none

/-- The email-change field invariant of the data model: the confirmation
key is non-empty exactly when an unconfirmed address is pending. -/
def email_fields_invariant (r : UserenaSignup) : Prop :=
  r.email_confirmation_key ≠ "" ↔ r.email_unconfirmed ≠ ""

/-- C4: the invariant that `email_confirmation_key` is non-empty iff
`email_unconfirmed` is non-empty holds after record creation, after an
email-change request with a (necessarily non-empty, since the boundary
validates the address) new email, and after a successful email
confirmation. -/
theorem email_fields_invariant_preserved :
    (∀ (user : UserAccount) (seed : Nat),
       email_fields_invariant (create_userena_signup user seed)) ∧
    (∀ (r : UserenaSignup) (email : String) (seed : Nat) (now : Int),
       email ≠ "" → email_fields_invariant (change_email r email seed now).1) ∧
    (∀ (r : UserenaSignup) (key : String) (r2 : UserenaSignup),
       confirm_email r key = some r2 → email_fields_invariant r2) := by
  refine ⟨?_, ?_, ?_⟩
  · intro user seed
    simp [create_userena_signup, email_fields_invariant]
  · intro r email seed now hemail
    simp only [change_email, email_fields_invariant, generate_sha1]
    constructor
    · intro _; exact hemail
    · intro _; exact hex40_ne_empty _
  · intro r key r2 hconf
    unfold confirm_email at hconf
    split_ifs at hconf
    cases hconf
    simp [email_fields_invariant]

/-- Sample account used to instantiate hypotheses of proved theorems on
concrete inputs. -/
def bobAccount : UserAccount :=
  { username := "bob"
    email := "Bob@x.com"
    date_joined := 0
    is_active := true
    first_name := ""
    last_name := "" }

/-- Sample unactivated signup record. -/
def bobSignup : UserenaSignup :=
  { user := bobAccount
    last_active := none
    activation_key := "abc123"
    activation_notification_send := false
    email_unconfirmed := ""
    email_confirmation_key := ""
    email_confirmation_key_created := none }

/-- C4 witness: the invariant theorem applied at a concrete record, email,
seed and clock. -/
theorem email_fields_invariant_preserved_witness :
    ("new@example.com" : String) ≠ "" ∧
    email_fields_invariant (change_email bobSignup "new@example.com" 3 100).1 :=
  ⟨by decide, email_fields_invariant_preserved.2.1 bobSignup "new@example.com" 3 100 (by decide)⟩

/-- ASCII lowercasing of a string, mapping `Char.toLower` over the
characters. This models both the Python `str.lower()` call and the
case-folding of Django `__iexact` lookups. -/
def lowerStr (s : String) : String :=
  String.mk (s.data.map Char.toLower)

/-- Modelled from the spec: `has_activated` is called on the related signup
record in `SignupForm.clean_email` but is defined in code outside the
verified sources. Per the specification an account is already activated
exactly when its activation key equals the sentinel. -/
def has_activated (r : UserenaSignup) : Bool :=
  r.activation_key == USERENA_ACTIVATED

/-- The Django lookup `User.objects.get(email__iexact=email)` with the
related signup record: case-insensitive email match over the record
store. -/
def find_by_email (db : List UserenaSignup) (email : String) :
    Option UserenaSignup :=
  db.find? (fun r => lowerStr r.user.email == lowerStr email)

/-- Outcome of `SignupForm.clean_email` (`forms.py` lines 68-82): success,
the `unique_unactivated` error which also stashes the matched signup on the
form for a resend, or the `unique_activated` error. -/
inductive SignupEmailResult where
  | ok (email : String)
  | err_pending_activation (signup : UserenaSignup)
  | err_already_activated
deriving DecidableEq, Repr

/-- `SignupForm.clean_email` (`forms.py` lines 68-82): return the email
when no account matches it case-insensitively; with the resend policy on
and the matched account unactivated, fail with the unactivated error and
flag that signup for a resend; in every other matched case fail with the
activated error. -/
def signup_clean_email (s : UserenaSettings) (db : List UserenaSignup)
    (email : String) : SignupEmailResult :=
  match find_by_email db email with
  | none => .ok email
  | some u =>
    if s.USERENA_ACTIVATION_RESEND_ON_SIGNUP ∧ ¬(has_activated u = true) then
      .err_pending_activation u
    else .err_already_activated

/-- Settings sample with the resend-on-duplicate-signup policy disabled. -/
def settingsNoResend : UserenaSettings :=
  { USERENA_ACTIVATION_DAYS := 7
    USERENA_ACTIVATION_RESEND_ON_SIGNUP := false
    USERENA_FORBIDDEN_USERNAMES := ["signup", "signout", "signin", "activate", "me", "password"]
    USERENA_MUGSHOT_GRAVATAR := true
    USERENA_MUGSHOT_DEFAULT := "identicon"
    USERENA_MUGSHOT_SIZE := 80 }

/-- C5 counterexample: with the resend policy disabled and a matching
account that is NOT activated, the code still fails with the activated
error `unique_activated`, so the claimed activated/unactivated distinction
is not kept when the policy flag is off. -/
theorem signup_clean_email_claim_counterexample :
    settingsNoResend.USERENA_ACTIVATION_RESEND_ON_SIGNUP = false ∧
    has_activated bobSignup = false ∧
    signup_clean_email settingsNoResend [bobSignup] "bob@x.com" =
      .err_already_activated := by
  decide

/-- C5 amended: with no case-insensitive email match, validation succeeds.
With a match: if the account is activated it fails with the activated
error; if it is not activated and the resend policy is enabled it fails
with the pending-activation error and flags that signup for a resend; if
the resend policy is disabled it fails with the activated error regardless
of the activation state, and never offers a resend. Validation is pure, so
no account is created in any failing case. -/
theorem signup_clean_email_amended (s : UserenaSettings)
    (db : List UserenaSignup) (email : String) :
    (find_by_email db email = none →
       signup_clean_email s db email = .ok email) ∧
    (∀ u, find_by_email db email = some u →
       ((has_activated u = true →
           signup_clean_email s db email = .err_already_activated) ∧
        (has_activated u = false →
           s.USERENA_ACTIVATION_RESEND_ON_SIGNUP = true →
           signup_clean_email s db email = .err_pending_activation u) ∧
        (s.USERENA_ACTIVATION_RESEND_ON_SIGNUP = false →
           signup_clean_email s db email = .err_already_activated))) := by
  constructor
  · intro hnone
    simp [signup_clean_email, hnone]
  · intro u hsome
    refine ⟨?_, ?_, ?_⟩
    · intro hact
      simp [signup_clean_email, hsome, hact]
    · intro hact hflag
      simp [signup_clean_email, hsome, hact, hflag]
    · intro hflag
      simp [signup_clean_email, hsome, hflag]

/-- C5 witness: the amended theorem applied at a concrete store, settings
and email, with the resend policy enabled and the matched account
unactivated. -/
theorem signup_clean_email_amended_witness :
    find_by_email [bobSignup] "bob@x.com" = some bobSignup ∧
    has_activated bobSignup = false ∧
    { settingsNoResend with
        USERENA_ACTIVATION_RESEND_ON_SIGNUP := true }.USERENA_ACTIVATION_RESEND_ON_SIGNUP = true ∧
    signup_clean_email
      { settingsNoResend with USERENA_ACTIVATION_RESEND_ON_SIGNUP := true }
      [bobSignup] "bob@x.com" = .err_pending_activation bobSignup :=
  ⟨by decide, by decide, by decide,
   ((signup_clean_email_amended
       { settingsNoResend with USERENA_ACTIVATION_RESEND_ON_SIGNUP := true }
       [bobSignup] "bob@x.com").2 bobSignup (by decide)).2.1 (by decide) (by decide)⟩

/-- Outcome of `ChangeEmailForm.clean_email` (`forms.py` lines 198-204):
success, the already-known error, or the already-in-use error. -/
inductive ChangeEmailResult where
  | ok (email : String)
  | err_unchanged
  | err_in_use
deriving DecidableEq, Repr

/-- `ChangeEmailForm.clean_email` (`forms.py` lines 198-204): fail with the
already-known error when the lowercased candidate equals the stored current
email of the form user; fail with the in-use error when the store, filtered
to case-insensitive matches of the candidate and then excluding records
whose email case-insensitively matches the current email of the user, is
non-empty; otherwise return the candidate. Note the first comparison
lowercases only the candidate, exactly as the source does. -/
def change_email_clean (db : List UserAccount) (user : UserAccount)
    (email : String) : ChangeEmailResult :=
  if lowerStr email = user.email then .err_unchanged
  else if ((db.filter (fun w => lowerStr w.email == lowerStr email)).filter
             (fun w => !(lowerStr w.email == lowerStr user.email))) ≠ [] then
    .err_in_use
  else .ok email

/-- C6 counterexample: for a user whose stored email contains an uppercase
letter, submitting the same address in lowercase is a case-insensitive
match of the current email, yet validation succeeds instead of failing
with the already-known error. -/
theorem change_email_clean_claim_counterexample :
    lowerStr "bob@x.com" = lowerStr bobAccount.email ∧
    change_email_clean [bobAccount] bobAccount "bob@x.com" =
      .ok "bob@x.com" := by
  decide

/-- C6 amended: validation fails with the already-known error exactly when
the lowercased candidate equals the stored current email verbatim (so the
check is case-insensitive only on the candidate side); it fails with the
in-use error exactly when that first check misses and some stored account
matches the candidate case-insensitively while not matching the current
email of the user case-insensitively; it succeeds otherwise. -/
theorem change_email_clean_amended (db : List UserAccount)
    (user : UserAccount) (email : String) :
    (change_email_clean db user email = .err_unchanged ↔
       lowerStr email = user.email) ∧
    (change_email_clean db user email = .err_in_use ↔
       (lowerStr email ≠ user.email ∧
        ∃ w ∈ db, lowerStr w.email = lowerStr email ∧
                  lowerStr w.email ≠ lowerStr user.email)) ∧
    (change_email_clean db user email = .ok email ↔
       (lowerStr email ≠ user.email ∧
        ¬ ∃ w ∈ db, lowerStr w.email = lowerStr email ∧
                    lowerStr w.email ≠ lowerStr user.email)) := by
  have hiff :
      ((db.filter (fun w => lowerStr w.email == lowerStr email)).filter
         (fun w => !(lowerStr w.email == lowerStr user.email))) ≠ [] ↔
      ∃ w ∈ db, lowerStr w.email = lowerStr email ∧
                lowerStr w.email ≠ lowerStr user.email := by
    rw [Ne, List.eq_nil_iff_forall_not_mem]
    push_neg
    constructor
    · rintro ⟨w, hw⟩
      simp only [List.mem_filter, beq_iff_eq, Bool.not_eq_true',
                 beq_eq_false_iff_ne] at hw
      exact ⟨w, hw.1.1, hw.1.2, hw.2⟩
    · rintro ⟨w, hwdb, hmatch, hne⟩
      refine ⟨w, ?_⟩
      simp only [List.mem_filter, beq_iff_eq, Bool.not_eq_true',
                 beq_eq_false_iff_ne]
      exact ⟨⟨hwdb, hmatch⟩, hne⟩
  unfold change_email_clean
  split_ifs with h1 h2 <;> (simp_all [hiff]; try assumption)

/-- One character of the username pattern `[\.\w]` of `USERNAME_RE` in
`forms.py`: ASCII letter, digit, dot or underscore. -/
def is_username_char (c : Char) : Bool :=
  c.isAlpha || c.isDigit || c == '.' || c == '_'

/-- The anchored regex `^[\.\w]+$` of the username field: non-empty and
every character from the allowed class. -/
def username_regex_ok (s : String) : Bool :=
  !s.isEmpty && s.data.all is_username_char

/-- The declared username form field (`forms.py` lines 26-30): regex match
plus the `max_length=30` bound. Field validation runs before
`clean_username`. -/
def username_field_ok (s : String) : Bool :=
  username_regex_ok s && decide (s.length ≤ 30)

/-- Outcome of username validation in `SignupForm`: field-level regex or
length failure, the taken error, the forbidden error, or success. -/
inductive UsernameResult where
  | ok (username : String)
  | err_invalid
  | err_taken
  | err_forbidden
deriving DecidableEq, Repr

/-- The Django lookup `User.objects.get(username__iexact=...)` in
`clean_username`, reduced to existence of a case-insensitive match. -/
def username_taken (db : List UserAccount) (username : String) : Bool :=
  db.any (fun u => lowerStr u.username == lowerStr username)

/-- Username validation of `SignupForm`: the declared regex field
(`forms.py` lines 26-30) followed by `clean_username` (`forms.py` lines
51-66), which first raises the taken error on a case-insensitive duplicate
and then the forbidden error when the lowercased username appears in
`USERENA_FORBIDDEN_USERNAMES`. -/
def validate_username (s : UserenaSettings) (db : List UserAccount)
    (username : String) : UsernameResult :=
  if ¬ username_field_ok username = true then .err_invalid
  else if username_taken db username = true then .err_taken
  else if lowerStr username ∈ s.USERENA_FORBIDDEN_USERNAMES then .err_forbidden
  else .ok username

/-- C7: assuming the configured forbidden list is stored lowercased (as
the shipped configuration is, which makes the membership test
case-insensitive), username validation succeeds exactly when the username
matches the pattern, has length at most 30, duplicates no existing
username case-insensitively and is not forbidden; a pattern-valid
case-insensitive duplicate fails with the taken error, and a pattern-valid
forbidden non-duplicate fails with the forbidden error. -/
theorem validate_username_correct (s : UserenaSettings)
    (db : List UserAccount) (u : String)
    (hlower : ∀ f ∈ s.USERENA_FORBIDDEN_USERNAMES, lowerStr f = f) :
    (validate_username s db u = .ok u ↔
       (username_regex_ok u = true ∧ u.length ≤ 30 ∧
        (¬ ∃ w ∈ db, lowerStr w.username = lowerStr u) ∧
        (¬ ∃ f ∈ s.USERENA_FORBIDDEN_USERNAMES, lowerStr f = lowerStr u))) ∧
    (username_field_ok u = true →
       (∃ w ∈ db, lowerStr w.username = lowerStr u) →
       validate_username s db u = .err_taken) ∧
    (username_field_ok u = true →
       (¬ ∃ w ∈ db, lowerStr w.username = lowerStr u) →
       (∃ f ∈ s.USERENA_FORBIDDEN_USERNAMES, lowerStr f = lowerStr u) →
       validate_username s db u = .err_forbidden) := by
  have htaken : username_taken db u = true ↔
      ∃ w ∈ db, lowerStr w.username = lowerStr u := by
    simp [username_taken, List.any_eq_true]
  have hforb : lowerStr u ∈ s.USERENA_FORBIDDEN_USERNAMES ↔
      ∃ f ∈ s.USERENA_FORBIDDEN_USERNAMES, lowerStr f = lowerStr u := by
    constructor
    · intro hmem
      exact ⟨lowerStr u, hmem, hlower _ hmem⟩
    · rintro ⟨f, hf, hfeq⟩
      rw [← hfeq, hlower f hf]
      exact hf
  have hfield : username_field_ok u = true ↔
      (username_regex_ok u = true ∧ u.length ≤ 30) := by
    simp [username_field_ok]
  unfold validate_username
  split_ifs with h1 h2 h3 <;> simp_all

/-- C10: when a pattern-valid username is both a case-insensitive
duplicate of an existing username and present in the forbidden list, the
taken check runs first: validation reports the taken error and never the
forbidden error. -/
theorem username_taken_precedes_forbidden (s : UserenaSettings)
    (db : List UserAccount) (u : String)
    (hfield : username_field_ok u = true)
    (htaken : username_taken db u = true)
    (_hforb : lowerStr u ∈ s.USERENA_FORBIDDEN_USERNAMES) :
    validate_username s db u = .err_taken ∧
    validate_username s db u ≠ .err_forbidden := by
  have h : validate_username s db u = .err_taken := by
    simp [validate_username, hfield, htaken]
  exact ⟨h, by simp [h]⟩

/-- Sample account whose username collides case-insensitively with the
forbidden name signup. -/
def signupAccount : UserAccount :=
  { username := "Signup"
    email := "s@x.com"
    date_joined := 0
    is_active := true
    first_name := ""
    last_name := "" }

/-- C7 witness: the username theorem applied to a concrete store in which
the name bob is taken, with the shipped lowercase forbidden list. -/
theorem validate_username_correct_witness :
    (∀ f ∈ settingsNoResend.USERENA_FORBIDDEN_USERNAMES, lowerStr f = f) ∧
    username_field_ok "bob" = true ∧
    (∃ w ∈ [bobAccount], lowerStr w.username = lowerStr "bob") ∧
    validate_username settingsNoResend [bobAccount] "bob" = .err_taken :=
  ⟨by decide, by decide, by decide,
   (validate_username_correct settingsNoResend [bobAccount] "bob"
      (by decide)).2.1 (by decide) (by decide)⟩

/-- C10 witness: the precedence theorem applied to the forbidden name
signup, which is also taken case-insensitively in the concrete store. -/
theorem username_taken_precedes_forbidden_witness :
    username_field_ok "signup" = true ∧
    username_taken [signupAccount] "signup" = true ∧
    lowerStr "signup" ∈ settingsNoResend.USERENA_FORBIDDEN_USERNAMES ∧
    validate_username settingsNoResend [signupAccount] "signup" = .err_taken :=
  ⟨by decide, by decide, by decide,
   (username_taken_precedes_forbidden settingsNoResend [signupAccount] "signup"
      (by decide) (by decide) (by decide)).1⟩

/-- `UserenaMugshotBaseProfile` (`models_base.py`): the profile variant
carrying an optional uploaded mugshot image; `mugshot` holds the resolved
URL of the uploaded image when one exists, mirroring the truthiness test
`if self.mugshot` followed by `self.mugshot.url`. -/
structure UserenaMugshotBaseProfile where
  user : UserAccount
  privacy : Privacy
  mugshot : Option String
deriving DecidableEq, Repr

/-- Modelled from the spec: `get_gravatar` lives in `userena/utils.py`,
which is not among the verified sources. Per the specification it
deterministically constructs a Gravatar URL keyed by a hash of the
lowercased email, with the configured size and default-image parameters. -/
def get_gravatar (email : String) (size : Nat) (default : String) : String :=
  "http://www.gravatar.com/avatar/" ++ hex40 (str_seed (lowerStr email)) ++
    "?s=" ++ toString size ++ "&d=" ++ default

/-- The five reserved Gravatar keyword values listed in
`get_mugshot_url`. -/
def gravatarReservedDefaults : List String :=
  ["404", "mm", "identicon", "monsterid", "wavatar"]

/-- `UserenaMugshotBaseProfile.get_mugshot_url` (`models_base.py` lines
170-201): return the uploaded image URL when present; otherwise the
Gravatar URL when `USERENA_MUGSHOT_GRAVATAR` is on; otherwise the
configured default unless it is one of the reserved Gravatar keywords, in
which case none. -/
def get_mugshot_url (s : UserenaSettings) (self : UserenaMugshotBaseProfile) :
    Option String :=
  match self.mugshot with
  | some url => some url
  | none =>
    if s.USERENA_MUGSHOT_GRAVATAR = true then
      some (get_gravatar self.user.email s.USERENA_MUGSHOT_SIZE
              s.USERENA_MUGSHOT_DEFAULT)
    else
      if s.USERENA_MUGSHOT_DEFAULT ∉ gravatarReservedDefaults then
        some s.USERENA_MUGSHOT_DEFAULT
      else none

/-- C8: avatar resolution returns the uploaded image URL whenever one
exists, whatever the Gravatar policy; with no uploaded image and Gravatar
enabled it returns the Gravatar URL derived from the email of the user;
with Gravatar disabled it returns the configured default identifier when
that identifier is not one of the five reserved keywords, and none
otherwise. -/
theorem get_mugshot_url_correct (s : UserenaSettings)
    (p : UserenaMugshotBaseProfile) :
    (∀ url, p.mugshot = some url → get_mugshot_url s p = some url) ∧
    (p.mugshot = none → s.USERENA_MUGSHOT_GRAVATAR = true →
       get_mugshot_url s p =
         some (get_gravatar p.user.email s.USERENA_MUGSHOT_SIZE
                 s.USERENA_MUGSHOT_DEFAULT)) ∧
    (p.mugshot = none → s.USERENA_MUGSHOT_GRAVATAR = false →
       s.USERENA_MUGSHOT_DEFAULT ∉ gravatarReservedDefaults →
       get_mugshot_url s p = some s.USERENA_MUGSHOT_DEFAULT) ∧
    (p.mugshot = none → s.USERENA_MUGSHOT_GRAVATAR = false →
       s.USERENA_MUGSHOT_DEFAULT ∈ gravatarReservedDefaults →
       get_mugshot_url s p = none) := by
  refine ⟨?_, ?_, ?_, ?_⟩
  · intro url hmug
    simp [get_mugshot_url, hmug]
  · intro hmug hgrav
    simp [get_mugshot_url, hmug, hgrav]
  · intro hmug hgrav hres
    simp [get_mugshot_url, hmug, hgrav, hres]
  · intro hmug hgrav hres
    simp [get_mugshot_url, hmug, hgrav, hres]

/-- Sample mugshot profile with an uploaded image. -/
def bobMugshotProfile : UserenaMugshotBaseProfile :=
  { user := bobAccount
    privacy := Privacy.Open
    mugshot := some "/media/mugshots/abcdef1234.png" }

/-- C8 witness: the avatar theorem applied at a concrete profile with an
uploaded image, under a Gravatar-enabled configuration. -/
theorem get_mugshot_url_correct_witness :
    bobMugshotProfile.mugshot = some "/media/mugshots/abcdef1234.png" ∧
    get_mugshot_url settingsNoResend bobMugshotProfile =
      some "/media/mugshots/abcdef1234.png" :=
  ⟨by decide,
   (get_mugshot_url_correct settingsNoResend bobMugshotProfile).1
     "/media/mugshots/abcdef1234.png" (by decide)⟩

/-- The runtime value handed to `ChangeEmailForm.__init__` as its `user`
argument: either an actual `User` instance or a value of some other
runtime type. -/
inductive FormUserArg where
  | user (u : UserAccount)
  | not_a_user
deriving DecidableEq, Repr

/-- A raised Python exception, as distinct from a structured validation
error returned to the caller. -/
inductive PyExn where
  | type_error (msg : String)
deriving DecidableEq, Repr

/-- `ChangeEmailForm.__init__` (`forms.py` lines 185-196): when the given
value is not a `User` instance the constructor raises `TypeError`
(modelled as `Except.error`); otherwise it stores the user on the form. -/
def change_email_form_init (arg : FormUserArg) : Except PyExn UserAccount :=
  match arg with
  | .user u => .ok u
  | .not_a_user => .error (.type_error "user must be an instance of User")

/-- C9 counterexample: invoking the email-change form constructor with a
value that is not a recognized user identity raises `TypeError` instead of
being rejected as a structured validation error, so the no-raise claim
fails at this input. -/
theorem change_email_form_init_raises_counterexample :
    change_email_form_init .not_a_user =
      .error (.type_error "user must be an instance of User") := rfl

/-- C9 amended: the email-change entry point type-checks its user argument
at the boundary, but a malformed value is rejected by raising `TypeError`,
not by a structured error: the constructor raises exactly on non-`User`
values and accepts every `User` instance unchanged. -/
theorem change_email_form_init_amended (arg : FormUserArg) :
    ((∃ e, change_email_form_init arg = .error e) ↔ arg = .not_a_user) ∧
    (∀ u, arg = .user u → change_email_form_init arg = .ok u) := by
  cases arg <;> simp [change_email_form_init]

/-- C9 witness: the amended constructor theorem applied at a concrete
`User` instance, which is accepted unchanged. -/
theorem change_email_form_init_amended_witness :
    change_email_form_init (.user bobAccount) = .ok bobAccount :=
  (change_email_form_init_amended (.user bobAccount)).2 bobAccount rfl

end Userena
